import Mathlib

/-!
Verification development for the dashboard diagnostic core.

We shallowly embed the two instrumented components and the log analyzer:

* `rrd/store.py` — the resilient data-access layer (`connect_db`, `DB.get_conn`,
  `DB.execute`, `DB.insert`, `DB.update`, `DB.query_all`, `DB.commit`,
  `DB.rollback`).  Python exceptions become an explicit error type threaded
  through `Except`; the mutable `DB` object becomes explicit state passing on a
  `DBState`; the behaviour of the external MySQL driver (whether a connect or a
  statement execution succeeds, what `lastrowid` / `rowcount` / `fetchall`
  return, whether a commit/rollback hits an operational error) is an oracle
  `World` fixed per run.  Wall-clock time cannot be embedded, so the
  `elapsed > 0.1s` slow test is an oracle bit per statement attempt and elapsed
  values are elided from events; no claim below depends on them.

* `rrd/corelib/__init__.py` — `auth_requests`, the outbound call tracker.  The
  module-global id counter and in-flight registry become a `TrackerState`; the
  HTTP transport outcome is an oracle.

* `logs/analyze_logs.py` — `LogAnalyzer`.  A raw log line is embedded as the
  result of the parse/dispatch stage: one constructor per tag pattern (the tag
  literals are mutually exclusive on any single line, so first-match dispatch
  over distinct tags is a case split), plus `unparsed` for lines with no
  leading timestamp or no recognised tag.  `generate_report` prints; we embed
  the values it prints as a `Report` structure.  Python floats carried by
  `elapsed=` fields are embedded as rationals; every concrete claim below uses
  values on which float and rational arithmetic agree exactly.

Python `dict`s are embedded as insertion-ordered association lists with
replace-in-place update, matching CPython semantics.
-/

/-- Insertion-ordered dict assignment `d[k] = v`: replaces in place when the
key is present, otherwise appends at the end (CPython dict semantics). -/
def dictInsert {α β : Type} [DecidableEq α] (k : α) (v : β) :
    List (α × β) → List (α × β)
  | [] => [(k, v)]
  | (k', v') :: rest =>
    if k' = k then (k, v) :: rest else (k', v') :: dictInsert k v rest

/-- Dict lookup `d.get(k)`. -/
def dictLookup {α β : Type} [DecidableEq α] (k : α) :
    List (α × β) → Option β
  | [] => none
  | (k', v) :: rest => if k' = k then some v else dictLookup k rest

/-- In-place mutation of the value under `k`, a no-op when `k` is absent
(models `if k in d: d[k][...] = ...` style updates). -/
def dictAdjust {α β : Type} [DecidableEq α] (k : α) (f : β → β) :
    List (α × β) → List (α × β)
  | [] => []
  | (k', v) :: rest =>
    if k' = k then (k', f v) :: rest else (k', v) :: dictAdjust k f rest

/-- Dict deletion `del d[k]`. -/
def dictDelete {α β : Type} [DecidableEq α] (k : α) :
    List (α × β) → List (α × β)
  | [] => []
  | (k', v) :: rest =>
    if k' = k then rest else (k', v) :: dictDelete k rest

/-- The keys of a dict, in insertion order. -/
def dictKeys {α β : Type} (d : List (α × β)) : List α := d.map Prod.fst

/-! ## The data-access layer (`rrd/store.py`) -/

/-- The Python exception classes that flow through `store.py`.
`attrError` is `AttributeError` (attribute access on `None`), `operationalError`
is `MySQLdb.OperationalError`, `integrityError` is `MySQLdb.IntegrityError`;
`otherError n` stands for any further exception class (`InterfaceError`,
`ValueError`, ...), distinguished by an arbitrary tag. -/
inductive DBErr : Type
  | attrError
  | operationalError
  | integrityError
  | otherError (tag : Nat)
deriving DecidableEq, Repr

/-- The classification of `except (AttributeError, MySQLdb.OperationalError)`
in `DB.execute`. -/
def isTransient : DBErr → Bool
  | DBErr.attrError => true
  | DBErr.operationalError => true
  | _ => false

/-- Structured events emitted by `store.py` (`logging` calls).  Elapsed-time
payloads are wall-clock and are elided.  `connectCritical e` is the
`logging.critical('connect db: %s' % e)` line of `connect_db`, recording which
driver exception was swallowed there. -/
inductive DBEvent : Type
  | connectCritical (e : DBErr)
  | dbSlow
  | dbReconnect (e : DBErr)
  | dbError (e : DBErr)
deriving DecidableEq, Repr

/-- The deterministic oracle for everything outside `store.py`: the MySQL
driver and the wall clock.  `connectOutcome n` is the result of the `n`-th raw
`MySQLdb.connect` call (`none` = the driver raises `connectErr`);
`execOutcome n` is the outcome of the `n`-th `cursor.execute` call (`none` =
success); `slowExec n` tells whether the statement attempt starting at exec
index `n` took more than 100ms; `commitOp n` / `rollbackOp n` tell whether the
`n`-th `conn.commit()` / `conn.rollback()` raises `OperationalError`. -/
structure World : Type where
  connectOutcome : Nat → Option Nat
  connectErr : DBErr
  execOutcome : Nat → Option DBErr
  slowExec : Nat → Bool
  lastrowid : Nat
  rowcount : Nat
  fetchRows : List Nat
  commitOp : Nat → Bool
  rollbackOp : Nat → Bool

/-- The mutable state of one `DB` instance plus the observable trace of its
interaction with the driver: `conn` is `self.conn` (a connection id or `None`);
the counters index the oracle; `closedConns` / `closedCursors` record every
`.close()` call; `fetched` records every cursor `fetchall` was called on;
`log` is the emitted event trace. -/
structure DBState : Type where
  conn : Option Nat
  connectCalls : Nat
  execCalls : Nat
  cursorCounter : Nat
  commitCalls : Nat
  rollbackCalls : Nat
  closedConns : List Nat
  closedCursors : List Nat
  fetched : List Nat
  log : List DBEvent
deriving DecidableEq, Repr

/-- A freshly constructed `DB(cfg)`: `self.conn = None`, nothing observed. -/
def initDBState : DBState :=
  { conn := none, connectCalls := 0, execCalls := 0, cursorCounter := 0,
    commitCalls := 0, rollbackCalls := 0, closedConns := [],
    closedCursors := [], fetched := [], log := [] }

/-- `connect_db(cfg)`: attempt a raw driver connect; on any exception, log it
at critical level and return `None` (the exception is swallowed). -/
def connect_db (w : World) (s : DBState) : Option Nat × DBState :=
  let s1 : DBState := { s with connectCalls := s.connectCalls + 1 }
  match w.connectOutcome s.connectCalls with
  | some c => (some c, s1)
  | none =>
    (none, { s1 with log := s1.log ++ [DBEvent.connectCritical w.connectErr] })

/-- `DB.get_conn`: `if self.conn is None: self.conn = connect_db(self.config);
return self.conn`. -/
def get_conn (w : World) (s : DBState) : Option Nat × DBState :=
  match s.conn with
  | some c => (some c, s)
  | none =>
    let r := connect_db w s
    (r.1, { r.2 with conn := r.1 })

/-- The `except (AttributeError, MySQLdb.OperationalError)` /
`except Exception` handlers of `DB.execute`, entered with the exception `e`
raised by the try block.  The transient branch logs `DB_RECONNECT`, runs
`self.conn and self.conn.close()`, sets `self.conn = None`, then retries
`self.get_conn().cursor()` and `cursor.execute(...)`; any exception in the
retry (including `AttributeError` from `.cursor()` on `None`) propagates
uncaught.  The catch-all branch logs `DB_ERROR` and re-raises. -/
def executeRecover (w : World) (e : DBErr) (s : DBState) :
    Except DBErr Nat × DBState :=
  if isTransient e then
    let s1 : DBState := { s with log := s.log ++ [DBEvent.dbReconnect e] }
    let s2 : DBState :=
      match s1.conn with
      | some c =>
        { s1 with closedConns := s1.closedConns ++ [c], conn := none }
      | none => { s1 with conn := none }
    let r := get_conn w s2
    match r.1 with
    | none => (Except.error DBErr.attrError, r.2)
    | some _ =>
      let cur := r.2.cursorCounter
      let s4 : DBState := { r.2 with cursorCounter := r.2.cursorCounter + 1 }
      match w.execOutcome s4.execCalls with
      | none => (Except.ok cur, { s4 with execCalls := s4.execCalls + 1 })
      | some e2 =>
        (Except.error e2, { s4 with execCalls := s4.execCalls + 1 })
  else
    (Except.error e, { s with log := s.log ++ [DBEvent.dbError e] })

/-- `DB.execute(*a, cursor=cursorArg)`: take the passed cursor or create one
from the (lazily established) connection — `.cursor()` on a `None` connection
raises `AttributeError` inside the try block — then run the statement; on
success emit `DB_SLOW` when the timing oracle says elapsed exceeded 100ms and
return the cursor; on failure dispatch to the handlers. -/
def execute (w : World) (s : DBState) (cursorArg : Option Nat) :
    Except DBErr Nat × DBState :=
  match cursorArg with
  | some c0 =>
    match w.execOutcome s.execCalls with
    | none =>
      let s1 : DBState := { s with execCalls := s.execCalls + 1 }
      if w.slowExec s.execCalls then
        (Except.ok c0, { s1 with log := s1.log ++ [DBEvent.dbSlow] })
      else (Except.ok c0, s1)
    | some e => executeRecover w e { s with execCalls := s.execCalls + 1 }
  | none =>
    let r := get_conn w s
    match r.1 with
    | none => executeRecover w DBErr.attrError r.2
    | some _ =>
      let cur := r.2.cursorCounter
      let s2 : DBState := { r.2 with cursorCounter := r.2.cursorCounter + 1 }
      match w.execOutcome s2.execCalls with
      | none =>
        let s3 : DBState := { s2 with execCalls := s2.execCalls + 1 }
        if w.slowExec s2.execCalls then
          (Except.ok cur, { s3 with log := s3.log ++ [DBEvent.dbSlow] })
        else (Except.ok cur, s3)
      | some e => executeRecover w e { s2 with execCalls := s2.execCalls + 1 }

/-- `DB.commit`: `if self.conn: try: self.conn.commit() except
OperationalError: self.conn = None` — best effort, never raises. -/
def commit (w : World) (s : DBState) : DBState :=
  match s.conn with
  | none => s
  | some _ =>
    let s1 : DBState := { s with commitCalls := s.commitCalls + 1 }
    if w.commitOp s.commitCalls then { s1 with conn := none } else s1

/-- `DB.rollback`: like `commit`, best effort. -/
def rollback (w : World) (s : DBState) : DBState :=
  match s.conn with
  | none => s
  | some _ =>
    let s1 : DBState := { s with rollbackCalls := s.rollbackCalls + 1 }
    if w.rollbackOp s.rollbackCalls then { s1 with conn := none } else s1

/-- `cursor and cursor.close()` on a cursor that is set. -/
def closeCursor (s : DBState) (cur : Nat) : DBState :=
  { s with closedCursors := s.closedCursors ++ [cur] }

/-- `DB.insert`: run the statement, read `lastrowid`, commit, return the row
id; `except MySQLdb.IntegrityError` rolls back and falls through (returning
`None`); `finally: cursor and cursor.close()` (the local cursor is still
`None` when `execute` raised, so nothing is closed then). -/
def DB.insert (w : World) (s : DBState) (cursorArg : Option Nat) :
    Except DBErr (Option Nat) × DBState :=
  match execute w s cursorArg with
  | (Except.ok cur, s1) =>
    let rowId := w.lastrowid
    let s2 := commit w s1
    (Except.ok (some rowId), closeCursor s2 cur)
  | (Except.error e, s1) =>
    if e = DBErr.integrityError then (Except.ok none, rollback w s1)
    else (Except.error e, s1)

/-- `DB.update`: run the statement, commit, read `rowcount`, return it; same
`IntegrityError` suppression and `finally` as `insert`. -/
def update (w : World) (s : DBState) (cursorArg : Option Nat) :
    Except DBErr (Option Nat) × DBState :=
  match execute w s cursorArg with
  | (Except.ok cur, s1) =>
    let s2 := commit w s1
    (Except.ok (some w.rowcount), closeCursor s2 cur)
  | (Except.error e, s1) =>
    if e = DBErr.integrityError then (Except.ok none, rollback w s1)
    else (Except.error e, s1)

/-- `DB.query_all`: `cursor = None; try: cursor = self.execute(...); return
cursor.fetchall() finally: cursor and cursor.close()`.  When `execute` raises,
the local cursor is still `None`, so the `finally` closes nothing and no
`fetchall` happens. -/
def query_all (w : World) (s : DBState) (cursorArg : Option Nat) :
    Except DBErr (List Nat) × DBState :=
  match execute w s cursorArg with
  | (Except.ok cur, s1) =>
    let s2 : DBState := { s1 with fetched := s1.fetched ++ [cur] }
    (Except.ok w.fetchRows, closeCursor s2 cur)
  | (Except.error e, s1) => (Except.error e, s1)

/-! ## The outbound call tracker (`rrd/corelib/__init__.py`) -/

/-- The outcome of the underlying `requests.<method>(...)` transport call. -/
inductive HttpOutcome : Type
  | success (status : Nat)
  | timeoutErr
  | connectionErr
  | otherExc
deriving DecidableEq, Repr

/-- The oracle for one `auth_requests` invocation: the transport outcome, the
`elapsed > 2.0s` slow bit, and the caller string computed by the stack walk. -/
structure ReqWorld : Type where
  outcome : HttpOutcome
  slow : Bool
  caller : String

/-- The exceptions `auth_requests` can raise: `raise Exception("no api
token")`, `raise Exception("invalid http method")`, and the three transport
exception classes it re-raises. -/
inductive ReqErr : Type
  | noApiToken
  | invalidMethod
  | httpTimeout
  | httpConnError
  | httpExc
deriving DecidableEq, Repr

/-- The structured events `auth_requests` emits.  Elapsed payloads are
wall-clock and elided; `activeCount` payloads are kept. -/
inductive ReqEvent : Type
  | reqStart (id activeCount : Nat)
  | reqError (id : Nat)
  | reqSuccess (id status : Nat)
  | reqSlow (id : Nat)
  | reqTimeout (id : Nat)
  | reqConnError (id : Nat)
  | reqException (id : Nat)
  | reqEnd (id activeCount : Nat)
deriving DecidableEq, Repr

/-- One entry of the `_active_requests` registry (`start` and `thread` are
wall-clock / runtime identities, elided). -/
structure CallRec : Type where
  method : String
  url : String
  caller : String
deriving DecidableEq, Repr

/-- The module-global tracker state: `_request_counter` and the
insertion-ordered `_active_requests` dict, plus the emitted event trace. -/
structure TrackerState : Type where
  counter : Nat
  active : List (Nat × CallRec)
  log : List ReqEvent
deriving DecidableEq, Repr

/-- Process start: counter at 0, empty registry. -/
def initTracker : TrackerState :=
  { counter := 0, active := [], log := [] }

/-- The `finally` block of `auth_requests`: under the registry lock, delete the
call's entry if present, read the post-removal registry size, and emit
`REQ_END` with it. -/
def finallyCleanup (rid : Nat) (st : TrackerState) : TrackerState :=
  let active1 :=
    if (dictLookup rid st.active).isSome then dictDelete rid st.active
    else st.active
  { st with active := active1,
            log := st.log ++ [ReqEvent.reqEnd rid active1.length] }

/-- The `elif` chain on `method` in `auth_requests`. -/
def isValidMethod (m : String) : Bool :=
  m = "POST" || m = "GET" || m = "PUT" || m = "DELETE"

/-- `auth_requests(method, url, ...)` with `hasToken` standing for the truth
value of `g.user_token`.  In source order: allocate the next id under the
counter lock; snapshot `len(_active_requests)` *before* inserting the new
`CallRecord` under the registry lock; emit `REQ_START`; if the token is
missing, emit `REQ_ERROR` and raise — note this happens *before* the
`try`/`finally`, so no cleanup runs; otherwise enter the try block: dispatch
on the method (an unrecognised method raises inside the try and is logged as
`REQ_EXCEPTION` by the catch-all handler), perform the transport call, log the
outcome (`REQ_SUCCESS` plus `REQ_SLOW` when over 2s, or the classified error
event), re-raise errors, and in every case run the `finally` cleanup. -/
def auth_requests (w : ReqWorld) (st : TrackerState)
    (method url : String) (hasToken : Bool) :
    Except ReqErr Nat × TrackerState :=
  let rid := st.counter + 1
  let st1 : TrackerState := { st with counter := rid }
  let activeBefore := st1.active.length
  let st2 : TrackerState :=
    { st1 with
      active := dictInsert rid ⟨method, url, w.caller⟩ st1.active,
      log := st1.log ++ [ReqEvent.reqStart rid activeBefore] }
  if hasToken = false then
    (Except.error ReqErr.noApiToken,
     { st2 with log := st2.log ++ [ReqEvent.reqError rid] })
  else
    if isValidMethod method then
      match w.outcome with
      | HttpOutcome.success status =>
        let st3 : TrackerState :=
          { st2 with log := st2.log ++ [ReqEvent.reqSuccess rid status] }
        let st4 : TrackerState :=
          if w.slow then { st3 with log := st3.log ++ [ReqEvent.reqSlow rid] }
          else st3
        (Except.ok status, finallyCleanup rid st4)
      | HttpOutcome.timeoutErr =>
        (Except.error ReqErr.httpTimeout,
         finallyCleanup rid
           { st2 with log := st2.log ++ [ReqEvent.reqTimeout rid] })
      | HttpOutcome.connectionErr =>
        (Except.error ReqErr.httpConnError,
         finallyCleanup rid
           { st2 with log := st2.log ++ [ReqEvent.reqConnError rid] })
      | HttpOutcome.otherExc =>
        (Except.error ReqErr.httpExc,
         finallyCleanup rid
           { st2 with log := st2.log ++ [ReqEvent.reqException rid] })
    else
      (Except.error ReqErr.invalidMethod,
       finallyCleanup rid
         { st2 with log := st2.log ++ [ReqEvent.reqException rid] })

/-! ## The log correlation engine (`logs/analyze_logs.py`) -/

/-- One input log line after the parse/dispatch stage of `analyze_file`: a
constructor per tag pattern, carrying exactly the regex capture groups that the
corresponding `analyze_*` method reads (ids are the captured strings, as in
the Python dict keys; timestamps are abstract instants; `elapsed` captures are
rationals).  `unparsed` covers lines with no leading timestamp and lines
matching no tag pattern — both are skipped.  The tag literals are mutually
exclusive on a single line, so the fixed first-match regex order of
`analyze_file` reduces to this case split. -/
inductive Line : Type
  | httpStart (ts : Nat) (rid method path : String)
  | httpEnd (ts : Nat) (rid method path status : String) (elapsed : Rat)
  | reqStart (ts : Nat) (id method url caller thread : String)
      (activeCount : Nat)
  | reqEnd (ts : Nat) (id : String) (elapsed : Rat)
  | reqSlow (ts : Nat) (id method url : String) (elapsed : Rat)
      (caller : String)
  | reqTimeout (ts : Nat) (id method url : String) (elapsed : Rat)
  | unparsed
deriving DecidableEq, Repr

/-- `self.http_requests[request_id]` entry. -/
structure HttpEntry : Type where
  startTs : Nat
  method : String
  path : String
  endTs : Option Nat
  status : Option String
  elapsed : Option Rat
deriving DecidableEq, Repr

/-- `self.api_requests[id]` entry. -/
structure ApiEntry : Type where
  startTs : Nat
  method : String
  url : String
  caller : String
  active_count_start : Nat
  endTs : Option Nat
  elapsed : Option Rat
deriving DecidableEq, Repr

/-- One `self.slow_requests` record. -/
structure SlowRec : Type where
  req_id : String
  ts : Nat
  elapsed : Rat
  caller : String
deriving DecidableEq, Repr

/-- One `self.timeouts` record. -/
structure TimeoutRec : Type where
  req_id : String
  ts : Nat
  url : String
  elapsed : Rat
deriving DecidableEq, Repr

/-- The `LogAnalyzer` accumulator state. -/
structure Analyzer : Type where
  http_requests : List (String × HttpEntry)
  api_requests : List (String × ApiEntry)
  slow_requests : List SlowRec
  timeouts : List TimeoutRec
  concurrent_peak : Nat
deriving DecidableEq, Repr

/-- `LogAnalyzer.__init__`. -/
def initAnalyzer : Analyzer :=
  { http_requests := [], api_requests := [], slow_requests := [],
    timeouts := [], concurrent_peak := 0 }

/-- `analyze_http_start`: unconditional dict assignment. -/
def analyze_http_start (st : Analyzer) (ts : Nat) (rid method path : String) :
    Analyzer :=
  { st with http_requests :=
      dictInsert rid ⟨ts, method, path, none, none, none⟩ st.http_requests }

/-- `analyze_http_end`: mutate the entry only when the id was seen as a
start (`if request_id in self.http_requests`). -/
def analyze_http_end (st : Analyzer) (ts : Nat) (rid status : String)
    (elapsed : Rat) : Analyzer :=
  if (dictLookup rid st.http_requests).isSome then
    let upd : HttpEntry → HttpEntry := fun e =>
      { e with endTs := some ts, status := some status,
               elapsed := some elapsed }
    { st with http_requests := dictAdjust rid upd st.http_requests }
  else st

/-- `analyze_req_start`: unconditional dict assignment (a repeated id
overwrites the whole entry) and the running-peak update
`if active_count > self.concurrent_peak`. -/
def analyze_req_start (st : Analyzer) (ts : Nat)
    (id method url caller : String) (activeCount : Nat) : Analyzer :=
  { st with
    api_requests :=
      dictInsert id ⟨ts, method, url, caller, activeCount, none, none⟩
        st.api_requests,
    concurrent_peak :=
      if activeCount > st.concurrent_peak then activeCount
      else st.concurrent_peak }

/-- `analyze_req_end`: mutate the entry only when the id was seen as a start
(`if req_id in self.api_requests`). -/
def analyze_req_end (st : Analyzer) (ts : Nat) (id : String) (elapsed : Rat) :
    Analyzer :=
  if (dictLookup id st.api_requests).isSome then
    let upd : ApiEntry → ApiEntry := fun e =>
      { e with endTs := some ts, elapsed := some elapsed }
    { st with api_requests := dictAdjust id upd st.api_requests }
  else st

/-- `analyze_slow`: unconditional append. -/
def analyze_slow (st : Analyzer) (ts : Nat) (id : String) (elapsed : Rat)
    (caller : String) : Analyzer :=
  { st with slow_requests := st.slow_requests ++ [⟨id, ts, elapsed, caller⟩] }

/-- `analyze_timeout`: unconditional append (no lookup of a prior start). -/
def analyze_timeout (st : Analyzer) (ts : Nat) (id url : String)
    (elapsed : Rat) : Analyzer :=
  { st with timeouts := st.timeouts ++ [⟨id, ts, url, elapsed⟩] }

/-- The per-line dispatch of `analyze_file`. -/
def analyzeLine (st : Analyzer) : Line → Analyzer
  | Line.httpStart ts rid method path => analyze_http_start st ts rid method path
  | Line.httpEnd ts rid _ _ status elapsed =>
      analyze_http_end st ts rid status elapsed
  | Line.reqStart ts id method url caller _ ac =>
      analyze_req_start st ts id method url caller ac
  | Line.reqEnd ts id elapsed => analyze_req_end st ts id elapsed
  | Line.reqSlow ts id _ _ elapsed caller =>
      analyze_slow st ts id elapsed caller
  | Line.reqTimeout ts id _ url elapsed => analyze_timeout st ts id url elapsed
  | Line.unparsed => st

/-- `analyze_file`: the single linear pass. -/
def analyze_file (st : Analyzer) (lines : List Line) : Analyzer :=
  lines.foldl analyzeLine st

/-- The numbers and detail lists `generate_report` prints, as data: section-1
totals and the peak; the per-section optional aggregates (printed only when
the underlying list is nonempty, hence `Option`); the chronological timeout
detail list.  The concurrency mean divides in the rationals (the concrete
claims below use inputs on which this agrees with Python's division
exactly). -/
structure Report : Type where
  httpTotal : Nat
  apiTotal : Nat
  slowTotal : Nat
  timeoutTotal : Nat
  concurrentPeak : Nat
  httpMeanElapsed : Option Rat
  apiMeanElapsed : Option Rat
  meanConcurrency : Option Rat
  maxConcurrency : Option Nat
  timeoutDetails : List TimeoutRec
deriving DecidableEq, Repr

/-- Mean of a list of rationals, `none` on the empty list (the report guards
each aggregate with a nonemptiness test). -/
def meanOf (l : List Rat) : Option Rat :=
  if l.length = 0 then none else some (l.sum / (l.length : Rat))

/-- `generate_report`, as the data it prints.  `http_elapsed` / `api_elapsed`
collect the `elapsed` fields of completed entries, in dict order; the
concurrency section reads every `active_count_start` (present on every api
entry, since only `analyze_req_start` creates them). -/
def generate_report (st : Analyzer) : Report :=
  let http_elapsed := st.http_requests.filterMap (fun kv => kv.2.elapsed)
  let api_elapsed := st.api_requests.filterMap (fun kv => kv.2.elapsed)
  let active_counts : List Nat :=
    st.api_requests.map (fun kv => kv.2.active_count_start)
  let meanC : Option Rat :=
    if active_counts.length = 0 then none
    else some ((active_counts.sum : Rat) / (active_counts.length : Rat))
  let maxC : Option Nat :=
    match active_counts with
    | [] => none
    | n :: rest => some (rest.foldl max n)
  { httpTotal := st.http_requests.length
    apiTotal := st.api_requests.length
    slowTotal := st.slow_requests.length
    timeoutTotal := st.timeouts.length
    concurrentPeak := st.concurrent_peak
    httpMeanElapsed := meanOf http_elapsed
    apiMeanElapsed := meanOf api_elapsed
    meanConcurrency := meanC
    maxConcurrency := maxC
    timeoutDetails := st.timeouts }

/-- One full run of `main`: a fresh `LogAnalyzer`, `analyze_file`, then
`generate_report`. -/
def runReport (lines : List Line) : Report :=
  generate_report (analyze_file initAnalyzer lines)

/-- The ids carried by the `REQ_START` lines of a log, in order. -/
def startIds : List Line → List String
  | [] => []
  | Line.reqStart _ id _ _ _ _ _ :: rest => id :: startIds rest
  | _ :: rest => startIds rest

/-! ## Dictionary lemmas -/

theorem dictLookup_dictInsert_self {α β : Type} [DecidableEq α]
    (k : α) (v : β) (d : List (α × β)) :
    dictLookup k (dictInsert k v d) = some v := by
  induction d with
  | nil => simp [dictInsert, dictLookup]
  | cons kv rest ih =>
    by_cases h : kv.1 = k
    · simp [dictInsert, dictLookup, h]
    · simpa [dictInsert, dictLookup, h] using ih

theorem mem_dictKeys_dictInsert {α β : Type} [DecidableEq α]
    (a k : α) (v : β) (d : List (α × β)) :
    a ∈ dictKeys (dictInsert k v d) ↔ a = k ∨ a ∈ dictKeys d := by
  induction d with
  | nil => simp [dictInsert, dictKeys]
  | cons kv rest ih =>
    obtain ⟨k', v'⟩ := kv
    by_cases h : k' = k
    · subst h
      simp [dictInsert, dictKeys]
      try tauto
    · simp [dictInsert, dictKeys, h] at ih ⊢
      tauto

theorem nodup_dictKeys_dictInsert {α β : Type} [DecidableEq α]
    (k : α) (v : β) (d : List (α × β)) (hd : (dictKeys d).Nodup) :
    (dictKeys (dictInsert k v d)).Nodup := by
  induction d with
  | nil => simp [dictInsert, dictKeys]
  | cons kv rest ih =>
    obtain ⟨k', v'⟩ := kv
    simp only [dictKeys, List.map_cons, List.nodup_cons] at hd
    by_cases h : k' = k
    · subst h
      simpa [dictInsert, dictKeys] using hd
    · have h2 := ih hd.2
      simp only [dictInsert, dictKeys] at h2 ⊢
      rw [if_neg h]
      simp only [List.map_cons, List.nodup_cons]
      refine ⟨?_, h2⟩
      intro hmem
      rcases (mem_dictKeys_dictInsert k' k v rest).mp hmem with h1 | h1
      · exact h h1
      · exact hd.1 h1

theorem dictKeys_dictAdjust {α β : Type} [DecidableEq α]
    (k : α) (f : β → β) (d : List (α × β)) :
    dictKeys (dictAdjust k f d) = dictKeys d := by
  induction d with
  | nil => rfl
  | cons kv rest ih =>
    obtain ⟨k', v'⟩ := kv
    by_cases h : k' = k
    · subst h
      simp [dictAdjust, dictKeys]
    · simp only [dictKeys] at ih
      simp [dictAdjust, dictKeys, h, ih]

/-! ## Claim theorems: the log correlation engine -/

/-- The three-`REQ_START` log of claim C6: distinct ids, active counts
0, 1, 2, nothing else. -/
def c6Log : List Line :=
  [Line.reqStart 0 "1" "GET" "http://a" "c" "t" 0,
   Line.reqStart 1 "2" "GET" "http://b" "c" "t" 1,
   Line.reqStart 2 "3" "GET" "http://c" "c" "t" 2]

/-- Claim C6: on a log of exactly three well-formed `REQ_START` lines with
distinct ids and `active_count` fields 0, 1, 2 and no other recognised lines,
the report states concurrency peak 2 and mean concurrency 1.0 (here 3/3,
on which Python's division and exact rational division agree). -/
theorem C6_three_starts_peak_and_mean :
    (runReport c6Log).concurrentPeak = 2 ∧
    (runReport c6Log).meanConcurrency = some 1 ∧
    (runReport c6Log).maxConcurrency = some 2 := by
  have hstate : analyze_file initAnalyzer c6Log =
      { http_requests := [],
        api_requests :=
          [("1", ⟨0, "GET", "http://a", "c", 0, none, none⟩),
           ("2", ⟨1, "GET", "http://b", "c", 1, none, none⟩),
           ("3", ⟨2, "GET", "http://c", "c", 2, none, none⟩)],
        slow_requests := [], timeouts := [], concurrent_peak := 2 } := by
    decide
  refine ⟨?_, ?_, ?_⟩
  · simp [runReport, hstate, generate_report]
  · simp [runReport, hstate, generate_report]
    try norm_num
  · simp [runReport, hstate, generate_report]

/-- Claim C7: a `REQ_TIMEOUT` line is appended to the timeout detail list
unconditionally (no prior `REQ_START` required) and is counted in the report,
whereas a `REQ_END` or `HTTP_END` line whose id was never seen as a start
leaves the analyzer state entirely unchanged (ignored without error, no
entry created). -/
theorem C7_timeout_unconditional_end_ignored :
    (∀ (st : Analyzer) (ts : Nat) (id m u : String) (e : Rat),
      (analyzeLine st (Line.reqTimeout ts id m u e)).timeouts
        = st.timeouts ++ [⟨id, ts, u, e⟩]) ∧
    (∀ (ls : List Line) (ts : Nat) (id m u : String) (e : Rat),
      (runReport (ls ++ [Line.reqTimeout ts id m u e])).timeoutTotal
          = (runReport ls).timeoutTotal + 1 ∧
      (⟨id, ts, u, e⟩ : TimeoutRec)
          ∈ (runReport (ls ++ [Line.reqTimeout ts id m u e])).timeoutDetails) ∧
    (∀ (st : Analyzer) (ts : Nat) (id : String) (e : Rat),
      dictLookup id st.api_requests = none →
      analyzeLine st (Line.reqEnd ts id e) = st) ∧
    (∀ (st : Analyzer) (ts : Nat) (rid m p stc : String) (e : Rat),
      dictLookup rid st.http_requests = none →
      analyzeLine st (Line.httpEnd ts rid m p stc e) = st) := by
  refine ⟨?_, ?_, ?_, ?_⟩
  · intro st ts id m u e
    simp [analyzeLine, analyze_timeout]
  · intro ls ts id m u e
    constructor
    · simp [runReport, analyze_file, generate_report, analyzeLine,
            analyze_timeout]
    · simp [runReport, analyze_file, generate_report, analyzeLine,
            analyze_timeout]
  · intro st ts id e h
    simp [analyzeLine, analyze_req_end, h]
  · intro st ts rid m p stc e h
    simp [analyzeLine, analyze_http_end, h]

/-- Witness for C7 at concrete inputs: the timeout line with unmatched id
`"9"` is appended starting from a fresh analyzer, and a `REQ_END` with
unmatched id leaves the fresh analyzer unchanged. -/
theorem C7_witness :
    ((analyzeLine initAnalyzer (Line.reqTimeout 5 "9" "GET" "http://x" 1)).timeouts
        = initAnalyzer.timeouts ++ [⟨"9", 5, "http://x", 1⟩]) ∧
    analyzeLine initAnalyzer (Line.reqEnd 5 "9" 1) = initAnalyzer ∧
    analyzeLine initAnalyzer (Line.httpEnd 5 "9" "GET" "/p" "200" 1)
        = initAnalyzer :=
  ⟨C7_timeout_unconditional_end_ignored.1 initAnalyzer 5 "9" "GET" "http://x" 1,
   C7_timeout_unconditional_end_ignored.2.2.1 initAnalyzer 5 "9" 1 rfl,
   C7_timeout_unconditional_end_ignored.2.2.2 initAnalyzer 5 "9" "GET" "/p"
     "200" 1 rfl⟩

/-- Claim C8: the engine is deterministic and idempotent over its input —
two full runs (fresh analyzer state, `analyze_file`, `generate_report`) over
identical log content produce identical reports. -/
theorem C8_idempotent_runs (l1 l2 : List Line) (h : l1 = l2) :
    runReport l1 = runReport l2 := by
  rw [h]

theorem startIds_cons (l : Line) (ls : List Line) :
    startIds (l :: ls) = startIds [l] ++ startIds ls := by
  cases l <;> rfl

/-- Per-line effect on the set of api-call keys: a `REQ_START` line adds its
id, every other line leaves the key set unchanged. -/
theorem analyzeLine_api_keys_mem (st : Analyzer) (l : Line) (a : String) :
    a ∈ dictKeys (analyzeLine st l).api_requests ↔
      a ∈ startIds [l] ∨ a ∈ dictKeys st.api_requests := by
  cases l with
  | reqStart ts id m u c th ac =>
    simp [analyzeLine, analyze_req_start, startIds,
      mem_dictKeys_dictInsert]
  | reqEnd ts id e =>
    by_cases h : (dictLookup id st.api_requests).isSome <;>
      simp [analyzeLine, analyze_req_end, h, startIds, dictKeys_dictAdjust]
  | httpStart ts rid m p => simp [analyzeLine, analyze_http_start, startIds]
  | httpEnd ts rid m p stc e =>
    by_cases h : (dictLookup rid st.http_requests).isSome <;>
      simp [analyzeLine, analyze_http_end, h, startIds]
  | reqSlow ts id m u e c => simp [analyzeLine, analyze_slow, startIds]
  | reqTimeout ts id m u e => simp [analyzeLine, analyze_timeout, startIds]
  | unparsed => simp [analyzeLine, startIds]

/-- Per-line preservation of key distinctness in the api-call dict. -/
theorem analyzeLine_api_keys_nodup (st : Analyzer) (l : Line)
    (h : (dictKeys st.api_requests).Nodup) :
    (dictKeys (analyzeLine st l).api_requests).Nodup := by
  cases l with
  | reqStart ts id m u c th ac =>
    exact nodup_dictKeys_dictInsert _ _ _ h
  | reqEnd ts id e =>
    by_cases hl : (dictLookup id st.api_requests).isSome <;>
      simpa [analyzeLine, analyze_req_end, hl, dictKeys_dictAdjust] using h
  | httpStart ts rid m p => exact h
  | httpEnd ts rid m p stc e =>
    by_cases hl : (dictLookup rid st.http_requests).isSome <;>
      simpa [analyzeLine, analyze_http_end, hl] using h
  | reqSlow ts id m u e c => exact h
  | reqTimeout ts id m u e => exact h
  | unparsed => exact h

/-- Over a whole scan, the api-call dict keys are exactly the distinct
`REQ_START` ids (plus whatever keys the scan began with), with no
duplicates. -/
theorem analyze_file_api_keys (ls : List Line) :
    ∀ st : Analyzer, (dictKeys st.api_requests).Nodup →
      (dictKeys (analyze_file st ls).api_requests).Nodup ∧
      ∀ a, a ∈ dictKeys (analyze_file st ls).api_requests ↔
        a ∈ startIds ls ∨ a ∈ dictKeys st.api_requests := by
  induction ls with
  | nil =>
    intro st h
    exact ⟨h, fun a => by simp [analyze_file, startIds]⟩
  | cons l rest ih =>
    intro st h
    have hstep : analyze_file st (l :: rest)
        = analyze_file (analyzeLine st l) rest := rfl
    obtain ⟨hnd, hmem⟩ := ih (analyzeLine st l)
      (analyzeLine_api_keys_nodup st l h)
    refine ⟨by rw [hstep]; exact hnd, fun a => ?_⟩
    rw [hstep, hmem a, analyzeLine_api_keys_mem st l a]
    constructor
    · rintro (h1 | h2 | h3)
      · exact Or.inl (by rw [startIds_cons]; exact List.mem_append_right _ h1)
      · exact Or.inl (by rw [startIds_cons]; exact List.mem_append_left _ h2)
      · exact Or.inr h3
    · rintro (h1 | h2)
      · rw [startIds_cons] at h1
        rcases List.mem_append.mp h1 with h1 | h1
        · exact Or.inr (Or.inl h1)
        · exact Or.inl h1
      · exact Or.inr (Or.inr h2)

/-- Claim C9 (implicit): api calls are keyed by id with last-write-wins
semantics — after any `REQ_START` line, the entry under its id holds exactly
that line's fields (overwriting any earlier entry) — and the reported
"API calls total" is the number of distinct ids occurring in `REQ_START`
lines, not the number of `REQ_START` lines. -/
theorem C9_last_write_wins_distinct_total :
    (∀ (st : Analyzer) (ts : Nat) (id m u c th : String) (ac : Nat),
      dictLookup id
          (analyzeLine st (Line.reqStart ts id m u c th ac)).api_requests
        = some ⟨ts, m, u, c, ac, none, none⟩) ∧
    (∀ ls : List Line, (runReport ls).apiTotal = (startIds ls).toFinset.card) := by
  constructor
  · intro st ts id m u c th ac
    simp [analyzeLine, analyze_req_start, dictLookup_dictInsert_self]
  · intro ls
    obtain ⟨hnd, hmem⟩ := analyze_file_api_keys ls initAnalyzer
      (by simp [initAnalyzer, dictKeys])
    have hsets : (dictKeys (analyze_file initAnalyzer ls).api_requests).toFinset
        = (startIds ls).toFinset := by
      ext a
      simp only [List.mem_toFinset]
      rw [hmem a]
      simp [initAnalyzer, dictKeys]
    have hcard := List.toFinset_card_of_nodup hnd
    have hlen : (dictKeys (analyze_file initAnalyzer ls).api_requests).length
        = (analyze_file initAnalyzer ls).api_requests.length := by
      simp [dictKeys]
    calc (runReport ls).apiTotal
        = (analyze_file initAnalyzer ls).api_requests.length := rfl
      _ = (dictKeys (analyze_file initAnalyzer ls).api_requests).length :=
          hlen.symm
      _ = (dictKeys (analyze_file initAnalyzer ls).api_requests).toFinset.card :=
          hcard.symm
      _ = (startIds ls).toFinset.card := by rw [hsets]

/-- Witness for C8: two runs over an identical concrete log. -/
theorem C8_witness :
    runReport [Line.reqStart 0 "1" "GET" "http://a" "c" "t" 0,
               Line.reqEnd 1 "1" 2]
      = runReport [Line.reqStart 0 "1" "GET" "http://a" "c" "t" 0,
                   Line.reqEnd 1 "1" 2] :=
  C8_idempotent_runs _ _ rfl

/-! ## Claim theorems: the data-access layer -/

theorem connect_db_fetched (w : World) (s : DBState) :
    (connect_db w s).2.fetched = s.fetched := by
  unfold connect_db
  cases h : w.connectOutcome s.connectCalls <;> simp

theorem connect_db_closedCursors (w : World) (s : DBState) :
    (connect_db w s).2.closedCursors = s.closedCursors := by
  unfold connect_db
  cases h : w.connectOutcome s.connectCalls <;> simp

theorem get_conn_fetched (w : World) (s : DBState) :
    (get_conn w s).2.fetched = s.fetched := by
  unfold get_conn
  cases hc : s.conn with
  | none => simpa using connect_db_fetched w s
  | some c => simp

theorem get_conn_closedCursors (w : World) (s : DBState) :
    (get_conn w s).2.closedCursors = s.closedCursors := by
  unfold get_conn
  cases hc : s.conn with
  | none => simpa using connect_db_closedCursors w s
  | some c => simp

theorem executeRecover_fetched (w : World) (e : DBErr) (s : DBState) :
    (executeRecover w e s).2.fetched = s.fetched := by
  simp only [executeRecover]
  repeat' split
  all_goals simp [get_conn_fetched]

theorem executeRecover_closedCursors (w : World) (e : DBErr) (s : DBState) :
    (executeRecover w e s).2.closedCursors = s.closedCursors := by
  simp only [executeRecover]
  repeat' split
  all_goals simp [get_conn_closedCursors]

theorem execute_fetched (w : World) (s : DBState) (cursorArg : Option Nat) :
    (execute w s cursorArg).2.fetched = s.fetched := by
  simp only [execute]
  repeat' split
  all_goals
    simp [executeRecover_fetched, get_conn_fetched]

theorem execute_closedCursors (w : World) (s : DBState)
    (cursorArg : Option Nat) :
    (execute w s cursorArg).2.closedCursors = s.closedCursors := by
  simp only [execute]
  repeat' split
  all_goals
    simp [executeRecover_closedCursors, get_conn_closedCursors]

/-- Claim C2: when the first underlying statement attempt fails with the
transient class, `execute` emits `DB_RECONNECT`, closes and discards the
current connection, establishes a new one, and retries exactly once with no
further classification: a successful retry returns the new cursor with
exactly 2 underlying attempts and no exception; a failing retry propagates
that second error uncaught (the trace shows no further event either way). -/
theorem C2_transient_reconnect_retry_once (w : World) (s : DBState)
    (c cNew : Nat) (e : DBErr)
    (hconn : s.conn = some c)
    (hfail : w.execOutcome s.execCalls = some e)
    (htrans : isTransient e = true)
    (hnew : w.connectOutcome s.connectCalls = some cNew) :
    (execute w s none).2.log = s.log ++ [DBEvent.dbReconnect e] ∧
    (execute w s none).2.closedConns = s.closedConns ++ [c] ∧
    (execute w s none).2.conn = some cNew ∧
    (execute w s none).2.execCalls = s.execCalls + 2 ∧
    (w.execOutcome (s.execCalls + 1) = none →
      (execute w s none).1 = Except.ok (s.cursorCounter + 1)) ∧
    (∀ e2, w.execOutcome (s.execCalls + 1) = some e2 →
      (execute w s none).1 = Except.error e2) := by
  have hg : get_conn w s = (some c, s) := by simp [get_conn, hconn]
  cases hretry : w.execOutcome (s.execCalls + 1) with
  | none =>
    refine ⟨?_, ?_, ?_, ?_, fun _ => ?_, fun e2 he2 => ?_⟩ <;>
      simp_all [execute, executeRecover, get_conn, connect_db, hg, hfail,
        htrans, hconn, hnew, hretry]
  | some eRetry =>
    refine ⟨?_, ?_, ?_, ?_, fun hnone => ?_, fun e2 he2 => ?_⟩ <;>
      simp_all [execute, executeRecover, get_conn, connect_db, hg, hfail,
        htrans, hconn, hnew, hretry]

/-- Sample world for the C2 witness: statement attempt 0 fails with
`OperationalError`, every later attempt succeeds, reconnects yield
connection 7. -/
def c2World : World :=
  { connectOutcome := fun _ => some 7,
    connectErr := DBErr.operationalError,
    execOutcome := fun n => if n = 0 then some DBErr.operationalError else none,
    slowExec := fun _ => false, lastrowid := 0, rowcount := 0,
    fetchRows := [], commitOp := fun _ => false, rollbackOp := fun _ => false }

/-- Sample state for the C2/C4/C5 witnesses: an established connection 3. -/
def connectedState : DBState := { initDBState with conn := some 3 }

/-- Witness for C2 at a concrete world and state. -/
theorem C2_witness :
    (execute c2World connectedState none).2.log
        = [DBEvent.dbReconnect DBErr.operationalError] ∧
    (execute c2World connectedState none).2.closedConns = [3] ∧
    (execute c2World connectedState none).2.conn = some 7 ∧
    (execute c2World connectedState none).2.execCalls = 2 ∧
    (execute c2World connectedState none).1 = Except.ok 1 := by
  have h := C2_transient_reconnect_retry_once c2World connectedState 3 7
    DBErr.operationalError rfl rfl rfl rfl
  exact ⟨h.1, h.2.1, h.2.2.1, h.2.2.2.1, h.2.2.2.2.1 rfl⟩

/-- Claim C4: any error of the underlying call that is neither transient nor
handled elsewhere propagates unmodified out of `execute` after a `DB_ERROR`
event, with no retry (exactly one underlying attempt); and on genuine success
`execute` returns exactly the cursor the statement ran on — the fresh cursor,
or the caller-passed one — never an empty sentinel. -/
theorem C4_propagate_unmodified_success_returns_cursor (w : World)
    (s : DBState) (c : Nat) (hconn : s.conn = some c) :
    (∀ e, w.execOutcome s.execCalls = some e → isTransient e = false →
      (execute w s none).1 = Except.error e ∧
      (execute w s none).2.log = s.log ++ [DBEvent.dbError e] ∧
      (execute w s none).2.execCalls = s.execCalls + 1) ∧
    (w.execOutcome s.execCalls = none →
      (execute w s none).1 = Except.ok s.cursorCounter) ∧
    (∀ c0, w.execOutcome s.execCalls = none →
      (execute w s (some c0)).1 = Except.ok c0) := by
  have hg : get_conn w s = (some c, s) := by simp [get_conn, hconn]
  refine ⟨fun e hfail hnt => ?_, fun hok => ?_, fun c0 hok => ?_⟩
  · refine ⟨?_, ?_, ?_⟩ <;>
      simp [execute, executeRecover, hg, hfail, hnt]
  · by_cases hs : w.slowExec s.execCalls <;>
      simp [execute, hg, hok, hs]
  · by_cases hs : w.slowExec s.execCalls <;>
      simp [execute, hok, hs]

/-- Sample world for the C4 witness: the statement raises an `InterfaceError`
class exception (`otherError 5`) on every attempt. -/
def c4World : World :=
  { connectOutcome := fun _ => some 7, connectErr := DBErr.operationalError,
    execOutcome := fun _ => some (DBErr.otherError 5),
    slowExec := fun _ => false, lastrowid := 0, rowcount := 0,
    fetchRows := [], commitOp := fun _ => false, rollbackOp := fun _ => false }

/-- Witness for C4 at a concrete world and state. -/
theorem C4_witness :
    (execute c4World connectedState none).1
        = Except.error (DBErr.otherError 5) ∧
    (execute c4World connectedState none).2.log
        = [DBEvent.dbError (DBErr.otherError 5)] ∧
    (execute c4World connectedState none).2.execCalls = 1 := by
  have h := (C4_propagate_unmodified_success_returns_cursor c4World
    connectedState 3 rfl).1 (DBErr.otherError 5) rfl rfl
  exact ⟨h.1, h.2.1, h.2.2⟩

/-- Claim C5: an integrity-constraint violation raised by the statement is
caught only inside `insert`/`update` — there it triggers a rollback and an
empty (`None`) return instead of propagating — while `execute` and
`query_all` propagate the same `IntegrityError` to their caller. -/
theorem C5_integrity_rollback_swallow (w : World) (s : DBState) (c : Nat)
    (hconn : s.conn = some c)
    (hfail : w.execOutcome s.execCalls = some DBErr.integrityError) :
    (execute w s none).1 = Except.error DBErr.integrityError ∧
    (query_all w s none).1 = Except.error DBErr.integrityError ∧
    (DB.insert w s none).1 = Except.ok none ∧
    (DB.insert w s none).2.rollbackCalls = s.rollbackCalls + 1 ∧
    (update w s none).1 = Except.ok none ∧
    (update w s none).2.rollbackCalls = s.rollbackCalls + 1 := by
  have hg : get_conn w s = (some c, s) := by simp [get_conn, hconn]
  have hex : execute w s none
      = (Except.error DBErr.integrityError,
         { s with cursorCounter := s.cursorCounter + 1,
                  execCalls := s.execCalls + 1,
                  log := s.log ++ [DBEvent.dbError DBErr.integrityError] }) := by
    simp [execute, executeRecover, hg, hfail, isTransient]
  have hrb : ∀ s' : DBState, s'.conn = some c →
      (rollback w s').rollbackCalls = s'.rollbackCalls + 1 := by
    intro s' h
    simp only [rollback, h]
    split <;> rfl
  refine ⟨by simp [hex], by simp [query_all, hex], ?_, ?_, ?_, ?_⟩
  · simp [DB.insert, hex]
  · simp only [DB.insert, hex]
    exact hrb _ (by simp [hconn])
  · simp [update, hex]
  · simp only [update, hex]
    exact hrb _ (by simp [hconn])

/-- Sample world for the C5 witness: every statement attempt raises
`IntegrityError`. -/
def c5World : World :=
  { connectOutcome := fun _ => some 7, connectErr := DBErr.operationalError,
    execOutcome := fun _ => some DBErr.integrityError,
    slowExec := fun _ => false, lastrowid := 11, rowcount := 4,
    fetchRows := [9], commitOp := fun _ => false, rollbackOp := fun _ => false }

/-- Witness for C5 at a concrete world and state. -/
theorem C5_witness :
    (DB.insert c5World connectedState none).1 = Except.ok none ∧
    (DB.insert c5World connectedState none).2.rollbackCalls = 1 ∧
    (execute c5World connectedState none).1
        = Except.error DBErr.integrityError := by
  have h := C5_integrity_rollback_swallow c5World connectedState 3 rfl rfl
  exact ⟨h.2.2.1, h.2.2.2.1, h.1⟩

/-- Claim C3: if the inner `execute` raises, `query_all` propagates that same
error and touches no cursor (no `fetchall`, no `close` — the local cursor is
still unset, so no secondary attribute error can mask the original); if
`execute` returns cleanly, the returned cursor is the one `fetchall` and
`close` are called on. -/
theorem C3_query_all_propagates_never_derefs (w : World) (s : DBState) :
    (∀ (e : DBErr) (s1 : DBState), execute w s none = (Except.error e, s1) →
      query_all w s none = (Except.error e, s1) ∧
      s1.fetched = s.fetched ∧ s1.closedCursors = s.closedCursors) ∧
    (∀ (cur : Nat) (s1 : DBState), execute w s none = (Except.ok cur, s1) →
      (query_all w s none).1 = Except.ok w.fetchRows ∧
      cur ∈ (query_all w s none).2.fetched ∧
      cur ∈ (query_all w s none).2.closedCursors) := by
  constructor
  · intro e s1 h
    refine ⟨by simp [query_all, h], ?_, ?_⟩
    · have hf := execute_fetched w s none
      rw [h] at hf
      exact hf
    · have hc := execute_closedCursors w s none
      rw [h] at hc
      exact hc
  · intro cur s1 h
    refine ⟨by simp [query_all, h], ?_, ?_⟩
    · simp [query_all, h, closeCursor]
    · simp [query_all, h, closeCursor]

/-- Witness for C3 at a concrete world and state (the statement raises a
non-recoverable error; `query_all` surfaces exactly it, with no fetch). -/
theorem C3_witness :
    query_all c4World connectedState none
        = (Except.error (DBErr.otherError 5),
           { conn := some 3, connectCalls := 0, execCalls := 1,
             cursorCounter := 1, commitCalls := 0, rollbackCalls := 0,
             closedConns := [], closedCursors := [], fetched := [],
             log := [DBEvent.dbError (DBErr.otherError 5)] }) ∧
    ({ conn := some 3, connectCalls := 0, execCalls := 1,
       cursorCounter := 1, commitCalls := 0, rollbackCalls := 0,
       closedConns := [], closedCursors := [], fetched := [],
       log := [DBEvent.dbError (DBErr.otherError 5)] } : DBState).fetched
      = connectedState.fetched := by
  have h := (C3_query_all_propagates_never_derefs c4World connectedState).1
    (DBErr.otherError 5)
    { conn := some 3, connectCalls := 0, execCalls := 1,
      cursorCounter := 1, commitCalls := 0, rollbackCalls := 0,
      closedConns := [], closedCursors := [], fetched := [],
      log := [DBEvent.dbError (DBErr.otherError 5)] } rfl
  exact ⟨h.1, h.2.1⟩

/-- A world whose database is unreachable: every raw connect raises `e`. -/
def worldNoDB (e : DBErr) : World :=
  { connectOutcome := fun _ => none, connectErr := e,
    execOutcome := fun _ => none, slowExec := fun _ => false,
    lastrowid := 0, rowcount := 0, fetchRows := [],
    commitOp := fun _ => false, rollbackOp := fun _ => false }

/-- Claim C10 (implicit): `connect_db` swallows the connect exception (logging
it) and returns nil; `get_conn` stores and returns nil; `execute`'s first
attempt then fails with the attribute-access-on-`None` error, is classified
transient (`DB_RECONNECT` in the trace) and the retry's identical attribute
error propagates — whatever the original driver exception `e` was, the caller
sees `AttributeError`, never `e`, and no statement attempt ever ran. -/
theorem C10_unreachable_db_attr_error (e : DBErr) :
    connect_db (worldNoDB e) initDBState
      = (none, { initDBState with
                 connectCalls := 1,
                 log := [DBEvent.connectCritical e] }) ∧
    get_conn (worldNoDB e) initDBState
      = (none, { initDBState with
                 connectCalls := 1,
                 log := [DBEvent.connectCritical e] }) ∧
    execute (worldNoDB e) initDBState none
      = (Except.error DBErr.attrError,
         { initDBState with
           connectCalls := 2,
           log := [DBEvent.connectCritical e,
                   DBEvent.dbReconnect DBErr.attrError,
                   DBEvent.connectCritical e] }) :=
  ⟨rfl, rfl, rfl⟩

/-! ## Claim theorem: the outbound call tracker -/

/-- A benign transport world for the C1 evaluation (never reached on the
missing-token path). -/
def c1World : ReqWorld :=
  { outcome := HttpOutcome.success 200, slow := false,
    caller := "view/api.py:10:index" }

/-- Claim C1 fails on the missing-token outcome: the token check runs after
registration but before the `try`/`finally`, so `auth_requests` raises
`no api token` with the `CallRecord` still registered (registry size 1, not
0) and no `REQ_END` event ever emitted for the call — the registry size no
longer equals the number of live calls. -/
theorem C1_missing_token_leaks_registry :
    auth_requests c1World initTracker "GET" "http://api/x" false
      = (Except.error ReqErr.noApiToken,
         { counter := 1,
           active := [(1, ⟨"GET", "http://api/x", "view/api.py:10:index"⟩)],
           log := [ReqEvent.reqStart 1 0, ReqEvent.reqError 1] }) ∧
    (auth_requests c1World initTracker "GET" "http://api/x" false).2.active.length
      = 1 ∧
    (∀ i a, ReqEvent.reqEnd i a ∉
      (auth_requests c1World initTracker "GET" "http://api/x" false).2.log) := by
  refine ⟨by rfl, by decide, ?_⟩
  intro i a hmem
  have hlog : (auth_requests c1World initTracker "GET" "http://api/x"
      false).2.log = [ReqEvent.reqStart 1 0, ReqEvent.reqError 1] := by decide
  rw [hlog] at hmem
  simp at hmem
